import Mathlib

/-!
Verification development for the PARETO example-notebook repository.

The repository contains two Jupyter notebooks:
* `integrated_optimization_mvr_jupyter_notebook.ipynb` — builds the integrated
  desalination/network model, solves it with IPOPT, prints cost results and
  back-calculates the MEE-MVR design;
* `MD_PARETO.ipynb` — an interactive membrane-distillation front end driven by
  ipywidgets sliders.

The notebook code itself (widget wiring, the results-printing cell) is embedded
below directly from the notebook source.  The harness components the spec
describes (`build`, `solve`, `extract`, `backCalculateDesign`, the error
taxonomy) are implemented in the PARETO package outside this repository's
source tree; they are modelled here from the specification text and marked as
such in their doc comments.
-/

/- ================================================================
   Part 1: the membrane-distillation notebook front end
   (embedded from MD_PARETO.ipynb)
   ================================================================ -/

/-- Model of an `ipywidgets.FloatSlider`: current value plus the bounds and
step it was created with.  The bounds are fixed at creation time. -/
structure FloatSlider where
  value : ℚ
  min : ℚ
  max : ℚ
  step : ℚ
deriving DecidableEq

/-- Assigning a value to a slider clamps it into the slider's `[min, max]`
range, as ipywidgets does for out-of-range assignments. -/
def FloatSlider.setValue (w : FloatSlider) (q : ℚ) : FloatSlider :=
  { w with value := Max.max w.min (Min.min w.max q) }

/-- The salinity slider exactly as created by the feed-characteristics cell:
`FloatSlider(value=0.035, min=0.01, max=0.15, step=0.005)`. -/
def salinity_widget0 : FloatSlider :=
  { value := 0.035, min := 0.01, max := 0.15, step := 0.005 }

/-- The flowrate slider exactly as created by the feed-characteristics cell:
`FloatSlider(value=1.0, min=0.1, max=10.0, step=0.1)`. -/
def flowrate_widget0 : FloatSlider :=
  { value := 1.0, min := 0.1, max := 10.0, step := 0.1 }

/-- The recovery-widget cell: it creates
`FloatSlider(value=0.5, min=0.1, max=(1 - salinity_widget.value / 0.3), step=0.1)`.
The `max` bound is computed from the salinity slider's value at the moment
this cell executes. -/
def recovery_widget_cell (salinity : ℚ) : FloatSlider :=
  { value := 0.5, min := 0.1, max := 1 - salinity / 0.3, step := 0.1 }

/-- State of the notebook session after the three widget cells have executed
in order with the default slider values untouched. -/
structure MDNotebookState where
  salinity_widget : FloatSlider
  flowrate_widget : FloatSlider
  recovery_widget : FloatSlider
deriving DecidableEq

/-- Notebook state right after the widget cells execute top to bottom: the
recovery widget's `max` is derived from the salinity slider's then-current
(default) value `0.035`. -/
def mdInitialState : MDNotebookState :=
  { salinity_widget := salinity_widget0,
    flowrate_widget := flowrate_widget0,
    recovery_widget := recovery_widget_cell salinity_widget0.value }

/-- User interactions available in the notebook UI: dragging one of the three
sliders.  Moving a slider only changes that slider's value; no cell re-runs. -/
inductive UIEvent where
  | setSalinity (q : ℚ)
  | setFlowrate (q : ℚ)
  | setRecovery (q : ℚ)
deriving DecidableEq

/-- Effect of one slider interaction on the notebook state. -/
def uiStep (s : MDNotebookState) : UIEvent → MDNotebookState
  | UIEvent.setSalinity q => { s with salinity_widget := s.salinity_widget.setValue q }
  | UIEvent.setFlowrate q => { s with flowrate_widget := s.flowrate_widget.setValue q }
  | UIEvent.setRecovery q => { s with recovery_widget := s.recovery_widget.setValue q }

/-- Notebook state after a sequence of slider interactions starting from the
freshly-executed notebook. -/
def runUI (evs : List UIEvent) : MDNotebookState :=
  evs.foldl uiStep mdInitialState

/-- The argument tuple with which `run_simulation` invokes the external
flowsheet (`md_flow.set_operating_conditions`). -/
structure SimulationCall where
  feed_flow_mass : ℚ
  feed_mass_frac_TDS : ℚ
  overall_recovery : ℚ
deriving DecidableEq

/-- The notebook's `run_simulation(salinity, flowrate)`: it passes its two
arguments through and reads `recovery_widget.value` (a closed-over global) for
`overall_recovery`.  It performs no check relating recovery to salinity. -/
def run_simulation (salinity flowrate : ℚ) (recovery_widget : FloatSlider) :
    SimulationCall :=
  { feed_flow_mass := flowrate,
    feed_mass_frac_TDS := salinity,
    overall_recovery := recovery_widget.value }

/-- The notebook's `on_run_button_clicked` handler: it calls
`run_simulation(salinity_widget.value, flowrate_widget.value)` with the
current widget state, unconditionally. -/
def on_run_button_clicked (s : MDNotebookState) : SimulationCall :=
  run_simulation s.salinity_widget.value s.flowrate_widget.value s.recovery_widget

/-- Interaction sequence: set recovery to 0.8 (legal against the stale bound
`1 - 0.035/0.3`), then raise salinity to 0.15, then click Run. -/
def staleRunSeq : List UIEvent :=
  [UIEvent.setRecovery 0.8, UIEvent.setSalinity 0.15]

/- ================================================================
   Part 2: the integrated-desalination notebook's results cell
   (embedded from integrated_optimization_mvr_jupyter_notebook.ipynb)
   ================================================================ -/

/-- The `m.m_network` block of the solved integrated model, restricted to the
quantities the results cell reads: the six network cost/revenue variables, the
time-discretisation parameter `p_dt`, the time-period set `s_T` and the
desalination-node set. -/
structure NetworkBlock where
  arc_cost : ℚ
  disp_cost : ℚ
  fresh_cost : ℚ
  stor_cost : ℚ
  stor_rev : ℚ
  treat_rev : ℚ
  p_dt : ℚ
  s_T : List String
  desalination_nodes : List String

/-- The solved integrated model as the results cell sees it: the network block
plus the indexed desalination cost variables `m.OPEX[s, t]` and `m.CAPEX[s]`. -/
structure IntegratedModel where
  m_network : NetworkBlock
  OPEX : String → String → ℚ
  CAPEX : String → ℚ

/-- Printed "Piping cost": `pyo.value(m.m_network.arc_cost)`, the raw variable. -/
def pipingCostPrinted (m : IntegratedModel) : ℚ := m.m_network.arc_cost

/-- Printed "Disposal cost": `pyo.value(m.m_network.disp_cost)`, the raw variable. -/
def disposalCostPrinted (m : IntegratedModel) : ℚ := m.m_network.disp_cost

/-- Printed "Fresh water cost": `pyo.value(m.m_network.fresh_cost)`, the raw variable. -/
def freshWaterCostPrinted (m : IntegratedModel) : ℚ := m.m_network.fresh_cost

/-- Printed "Storage Cost": `pyo.value(m.m_network.stor_cost)`, the raw variable. -/
def storageCostPrinted (m : IntegratedModel) : ℚ := m.m_network.stor_cost

/-- Printed "Storage reward": `pyo.value(m.m_network.stor_rev)`, the raw variable. -/
def storageRewardPrinted (m : IntegratedModel) : ℚ := m.m_network.stor_rev

/-- Printed "Treatment reward": `pyo.value(m.m_network.treat_rev)`, the raw variable. -/
def treatmentRewardPrinted (m : IntegratedModel) : ℚ := m.m_network.treat_rev

/-- Printed "Treatment cost - OPEX":
`1000 * pyo.value(sum(sum(m.OPEX[s, t] / 365 * m.m_network.p_dt for t in
m.m_network.s_T) for s in m.m_network.desalination_nodes))`. -/
def treatmentOpexPrinted (m : IntegratedModel) : ℚ :=
  1000 *
    ((m.m_network.desalination_nodes.map (fun s =>
      (m.m_network.s_T.map (fun t => m.OPEX s t / 365 * m.m_network.p_dt)).sum)).sum)

/-- Printed "Treatment cost - CAPEX":
`1000 * pyo.value(sum(m.CAPEX[s] for s in m.m_network.desalination_nodes)
/ 365 * m.m_network.p_dt * len(m.m_network.s_T))`. -/
def treatmentCapexPrinted (m : IntegratedModel) : ℚ :=
  1000 *
    ((m.m_network.desalination_nodes.map (fun s => m.CAPEX s)).sum / 365 *
      m.m_network.p_dt * (m.m_network.s_T.length : ℚ))

/- ================================================================
   Part 3: the flowsheet-build-and-solve harness
   (modelled from the specification; the implementations of these
   components live in the PARETO package outside this repository)
   ================================================================ -/

/-- Modelled from the spec: the error taxonomy of section 7 for the harness
components that raise (Infeasible / IterationLimit are termination statuses,
not errors). -/
inductive HarnessError where
  | dataFormatError
  | configurationError
  | initializationError
  | extractionError
deriving DecidableEq

/-- Modelled from the spec: `RawInputTable` — a set-definitions mapping
(set name → ordered member identifiers) and a parameters mapping
(parameter name → index tuple → numeric value), as produced by `get_data` /
`data_parser` from the workbook. -/
structure RawInputTable where
  setData : List (String × List String)
  paramData : List (String × List (List String × ℚ))
deriving DecidableEq

/-- Modelled from the spec: the network's site set, the set of node
identifiers a `SiteDesignSelection` may reference (missing from src/; the set
is read by `data_parser` from the "Nodes" sheet of the workbook). -/
def RawInputTable.siteSet (t : RawInputTable) : List String :=
  (t.setData.lookup "Nodes").getD []

/-- Modelled from the spec: `SiteDesignSelection` — a mapping from site
identifier to the number of process-unit stages to build there, e.g.
`{"R01_IN": 1}` (the notebook's `desalination_dict` / `treatment_dict`). -/
abbrev SiteDesignSelection : Type := List (String × Nat)

/-- Algebraic expressions over variables and parameters, the constraint and
objective language of a `ModelInstance`. -/
inductive AlgExpr where
  | const (c : ℚ)
  | var (n : String)
  | add (a b : AlgExpr)
  | mul (a b : AlgExpr)
deriving DecidableEq

/-- Constraint relation: equality or inequality. -/
inductive RelOp where
  | eq
  | le
deriving DecidableEq

/-- An algebraic constraint of a `ModelInstance`. -/
structure Constraint where
  lhs : AlgExpr
  op : RelOp
  rhs : AlgExpr
deriving DecidableEq

/-- Variable domains of a `ModelInstance` per the spec's data model:
continuous-bounded, continuous-unbounded, or binary. -/
inductive VarDomain where
  | continuousBounded (lo hi : ℚ)
  | continuousUnbounded
  | binary
deriving DecidableEq

/-- Modelled from the spec: `ModelInstance` — decision variables (name, domain
and current value), algebraic constraints, a scalar objective, and the record
of how many unit stages were instantiated at each selected site (missing from
src/; built by `integrated_model_build`). -/
structure ModelInstance where
  vars : List (String × VarDomain × ℚ)
  constraints : List Constraint
  objective : AlgExpr
  builtStages : List (String × Nat)
deriving DecidableEq

/-- Number of decision variables of a model instance. -/
def varCount (m : ModelInstance) : Nat := m.vars.length

/-- Number of constraints of a model instance. -/
def conCount (m : ModelInstance) : Nat := m.constraints.length

/-- Names of the network-level cost and revenue variables every built network
carries (the quantities the results cell reads off `m.m_network`). -/
def costVarNames : List String :=
  ["arc_cost", "disp_cost", "fresh_cost", "stor_cost", "stor_rev", "treat_rev"]

/-- Network-level variables: one cost/revenue variable per `costVarNames`
entry and one flow variable per network node. -/
def networkVariables (t : RawInputTable) : List (String × VarDomain × ℚ) :=
  costVarNames.map (fun n => (n, VarDomain.continuousUnbounded, 0)) ++
    t.siteSet.map (fun s => ("flow_" ++ s, VarDomain.continuousBounded 0 1000, 0))

/-- Network-level constraints: a capacity bound on each node's flow variable. -/
def networkConstraints (t : RawInputTable) : List Constraint :=
  t.siteSet.map (fun s =>
    { lhs := AlgExpr.var ("flow_" ++ s), op := RelOp.le, rhs := AlgExpr.const 1000 })

/-- Variables of the `i`-th chained unit stage at a site: inlet flow, outlet
flow, and the stage brine salinity (bounded by the solubility limit 0.3). -/
def stageVariables (site : String) (i : Nat) : List (String × VarDomain × ℚ) :=
  [ (site ++ "_stage" ++ toString i ++ "_flow_in", VarDomain.continuousBounded 0 1000, 0),
    (site ++ "_stage" ++ toString i ++ "_flow_out", VarDomain.continuousBounded 0 1000, 0),
    (site ++ "_stage" ++ toString i ++ "_salinity", VarDomain.continuousBounded 0 (3/10), 0) ]

/-- Port-wiring constraints of the `i`-th stage at a site: stage 0's inlet is
wired to the node's network flow variable; stage `i+1`'s inlet is wired to
stage `i`'s outlet, replacing the node's prior pass-through behavior. -/
def stageConstraints (site : String) (i : Nat) : List Constraint :=
  [ { lhs := AlgExpr.var (site ++ "_stage" ++ toString i ++ "_flow_in"),
      op := RelOp.eq,
      rhs := match i with
             | 0 => AlgExpr.var ("flow_" ++ site)
             | j + 1 => AlgExpr.var (site ++ "_stage" ++ toString j ++ "_flow_out") },
    { lhs := AlgExpr.var (site ++ "_stage" ++ toString i ++ "_flow_out"),
      op := RelOp.le,
      rhs := AlgExpr.var (site ++ "_stage" ++ toString i ++ "_flow_in") } ]

/-- Variables contributed by building `count` chained unit stages at a site,
plus the site's treatment OPEX and CAPEX cost variables. -/
def siteUnitVariables (site : String) (count : Nat) : List (String × VarDomain × ℚ) :=
  (List.range count).flatMap (stageVariables site) ++
    [ ("OPEX_" ++ site, VarDomain.continuousUnbounded, 0),
      ("CAPEX_" ++ site, VarDomain.continuousUnbounded, 0) ]

/-- Constraints contributed by building `count` chained unit stages at a site. -/
def siteUnitConstraints (site : String) (count : Nat) : List Constraint :=
  (List.range count).flatMap (stageConstraints site)

/-- Modelled from the spec: the unit-model-defined maximum number of chained
stages `build` accepts at one site (missing from src/; the spec leaves the
numeric value to the unit model, so a fixed representative value is used). -/
def unitMaxStages : Nat := 4

/-- Modelled from the spec: `ModelBuilder.build` (missing from src/; the
notebook only calls `integrated_model_build`).  For every site in `selection`
it instantiates `count` chained unit sub-models at that network node and wires
their ports into the network.  It fails with `ConfigurationError` if a
selected site has no corresponding network node or a requested stage count
exceeds the unit-model maximum; on failure no partial model is produced. -/
def build (t : RawInputTable) (sel : SiteDesignSelection) :
    Except HarnessError ModelInstance :=
  if sel.all (fun p => t.siteSet.contains p.1) then
    if sel.all (fun p => p.2 ≤ unitMaxStages) then
      Except.ok
        { vars := networkVariables t ++ sel.flatMap (fun p => siteUnitVariables p.1 p.2),
          constraints := networkConstraints t ++ sel.flatMap (fun p => siteUnitConstraints p.1 p.2),
          objective := AlgExpr.var "arc_cost",
          builtStages := sel }
    else Except.error HarnessError.configurationError
  else Except.error HarnessError.configurationError

/-- Modelled from the spec: termination statuses of a solve attempt. -/
inductive TerminationStatus where
  | Optimal
  | FeasibleSuboptimal
  | Infeasible
  | SolverError
  | IterationLimit
deriving DecidableEq

/-- Modelled from the spec: `TerminationReport` — status, wall-clock duration,
iteration count, and the final objective value, present only when the status
is Optimal or FeasibleSuboptimal. -/
structure TerminationReport where
  status : TerminationStatus
  duration : ℚ
  iterations : Nat
  objective : Option ℚ
deriving DecidableEq

/-- Modelled from the spec: `ResultsReport` — a flat mapping from a
human-readable metric name to a numeric value. -/
abbrev ResultsReport : Type := List (String × ℚ)

/-- The minimum set of metric names an extracted report must populate
(spec section 6). -/
def reportFieldNames : List String :=
  ["piping/arc cost", "disposal cost", "freshwater cost", "storage cost",
   "storage revenue", "treatment revenue", "treatment OPEX", "treatment CAPEX"]

/-- Current value of a named decision variable of a model instance (0 when the
name is absent; every built model carries the cost variables read below). -/
def lookupValue (m : ModelInstance) (n : String) : ℚ :=
  match m.vars.find? (fun v => v.1 == n) with
  | some v => v.2.2
  | none => 0

/-- Sum of the values of one per-site cost variable family over the sites the
model built stages at. -/
def siteCostSum (m : ModelInstance) (family : String) : ℚ :=
  (m.builtStages.map (fun p => lookupValue m (family ++ p.1))).sum

/-- Modelled from the spec: the report built by `ResultsExtractor.extract`
from a solved model — the named network cost quantities read raw, and the
per-site treatment OPEX/CAPEX time-annualized as in the notebook's results
cell (factor 1000, per-day discretisation over 365 days). -/
def buildReport (m : ModelInstance) : ResultsReport :=
  [ ("piping/arc cost", lookupValue m "arc_cost"),
    ("disposal cost", lookupValue m "disp_cost"),
    ("freshwater cost", lookupValue m "fresh_cost"),
    ("storage cost", lookupValue m "stor_cost"),
    ("storage revenue", lookupValue m "stor_rev"),
    ("treatment revenue", lookupValue m "treat_rev"),
    ("treatment OPEX", 1000 * siteCostSum m "OPEX_" / 365),
    ("treatment CAPEX", 1000 * siteCostSum m "CAPEX_" / 365) ]

/-- State of one pipeline run after a model has been built: the model instance
(mutated in place by initialization and solving) together with the most recent
TerminationReport, if any solve attempt has completed. -/
structure PipelineState where
  model : ModelInstance
  lastReport : Option TerminationReport
deriving DecidableEq

/-- Modelled from the spec: `ResultsExtractor.extract` (missing from src/; the
notebook's results cell is its caller).  It rejects a model whose latest
TerminationReport status is Infeasible or SolverError with `ExtractionError`;
otherwise it reads the named quantities out of the solved model.  The returned
state is the operation's view of the run after extraction: extraction only
reads variable values, so the state comes back unchanged. -/
def extract (st : PipelineState) : Except HarnessError (ResultsReport × PipelineState) :=
  match st.lastReport with
  | none => Except.error HarnessError.extractionError
  | some r =>
    match r.status with
    | TerminationStatus.Infeasible => Except.error HarnessError.extractionError
    | TerminationStatus.SolverError => Except.error HarnessError.extractionError
    | _ => Except.ok (buildReport st.model, st)

/-- Raw statuses the external nonlinear solver can report back. -/
inductive RawSolverStatus where
  | optimalFound
  | acceptableFound
  | infeasibleDetected
  | limitExceeded
  | abnormal
deriving DecidableEq

/-- One invocation's worth of output from the external solver: its reported
status, timing and iteration counters, the objective it reached, and the
variable values it loads back into the model. -/
structure RawSolverOutcome where
  rawStatus : RawSolverStatus
  duration : ℚ
  iterations : Nat
  objectiveValue : ℚ
  solution : List (String × ℚ)
deriving DecidableEq

/-- Modelled from the spec: `SolverOptions` — the recognized tunables
(`mu_init`, `bound_push` in the notebook's IPOPT invocation, plus iteration
and tolerance limits). -/
structure SolverOptions where
  barrierInitParam : ℚ
  boundPush : ℚ
  maxIterations : Nat
  convergenceTolerance : ℚ
deriving DecidableEq

/-- Modelled from the spec: the classification policy of section 4.4 mapping
the solver-reported condition to a TerminationStatus. -/
def classify : RawSolverStatus → TerminationStatus
  | RawSolverStatus.optimalFound => TerminationStatus.Optimal
  | RawSolverStatus.acceptableFound => TerminationStatus.FeasibleSuboptimal
  | RawSolverStatus.infeasibleDetected => TerminationStatus.Infeasible
  | RawSolverStatus.limitExceeded => TerminationStatus.IterationLimit
  | RawSolverStatus.abnormal => TerminationStatus.SolverError

/-- TerminationReport assembled from one raw solver outcome; the objective
value is kept only for Optimal / FeasibleSuboptimal statuses. -/
def classifyReport (o : RawSolverOutcome) : TerminationReport :=
  { status := classify o.rawStatus,
    duration := o.duration,
    iterations := o.iterations,
    objective :=
      match classify o.rawStatus with
      | TerminationStatus.Optimal => some o.objectiveValue
      | TerminationStatus.FeasibleSuboptimal => some o.objectiveValue
      | _ => none }

/-- Loads the solver's returned variable values into the model instance
(variables the solver did not report keep their previous value). -/
def loadSolution (m : ModelInstance) (sol : List (String × ℚ)) : ModelInstance :=
  { m with vars := m.vars.map (fun v =>
      match sol.lookup v.1 with
      | some q => (v.1, v.2.1, q)
      | none => v) }

/-- Modelled from the spec: `SolveOrchestrator.solve` (missing from src/; the
notebook's `ipopt.solve(m, tee=True)` is its caller).  The external solver is
an oracle indexed by an invocation counter; `solve` performs exactly one
oracle invocation at the counter it was given, loads the returned solution,
classifies the termination condition, records the report as the run's latest,
and hands back the advanced counter.  No retry happens inside. -/
def solve (oracle : Nat → ModelInstance → SolverOptions → RawSolverOutcome)
    (callIdx : Nat) (st : PipelineState) (opts : SolverOptions) :
    PipelineState × TerminationReport × Nat :=
  let outcome := oracle callIdx st.model opts
  let report := classifyReport outcome
  ({ model := loadSolution st.model outcome.solution, lastReport := some report },
   report, callIdx + 1)

/-- Per-site physical sizing output of the back-calculation: the confirmed
stage/effect count and a representative equipment sizing quantity derived
from the network solution's boundary values. -/
structure SiteDesign where
  stages : Nat
  evapArea : ℚ
deriving DecidableEq

/-- Modelled from the spec: `DesignReport` — per-site sizing outputs keyed by
site identifier. -/
abbrev DesignReport : Type := List (String × SiteDesign)

/-- Modelled from the spec: `ResultsExtractor.backCalculateDesign` (missing
from src/; the notebook calls `back_calculate_design`).  For each site in the
selection it confirms the stage count the network model built there and
derives a closed-form equipment sizing from the site's solved boundary flow. -/
def backCalculateDesign (m : ModelInstance) (sel : SiteDesignSelection) : DesignReport :=
  sel.map (fun p =>
    (p.1,
     { stages := ((m.builtStages.lookup p.1).getD 0),
       evapArea := 10 * lookupValue m (p.1 ++ "_stage0_flow_in") }))

/-- Demonstration input table: the single-node network of the notebook's demo
case study, reduced to the site set the claims exercise. -/
def demoTable : RawInputTable :=
  { setData := [("Nodes", ["R01_IN", "N01"])], paramData := [] }

/-- The notebook's selection `{"R01_IN": 1}`. -/
def demoSel : SiteDesignSelection := [("R01_IN", 1)]

/-- The model instance built from the demonstration inputs. -/
def demoModel : ModelInstance :=
  match build demoTable demoSel with
  | Except.ok m => m
  | Except.error _ =>
      { vars := [], constraints := [], objective := AlgExpr.const 0, builtStages := [] }

/-- A termination report of a successful demonstration solve. -/
def demoOptimalReport : TerminationReport :=
  { status := TerminationStatus.Optimal, duration := 1, iterations := 20, objective := some 42 }

/-- Pipeline state of the demonstration run after a successful solve. -/
def demoSolvedState : PipelineState :=
  { model := demoModel, lastReport := some demoOptimalReport }

/-- A termination report of an infeasible demonstration solve. -/
def demoInfeasibleReport : TerminationReport :=
  { status := TerminationStatus.Infeasible, duration := 1, iterations := 3000, objective := none }

/-- A constant solver oracle used to exercise `solve` on concrete inputs. -/
def demoOracle : Nat → ModelInstance → SolverOptions → RawSolverOutcome :=
  fun _ _ _ =>
    { rawStatus := RawSolverStatus.optimalFound, duration := 1, iterations := 20,
      objectiveValue := 42, solution := [("arc_cost", 7)] }

/-- A second solver oracle, agreeing with `demoOracle` at invocation 0 only. -/
def demoOracleAlt : Nat → ModelInstance → SolverOptions → RawSolverOutcome :=
  fun i m o =>
    if i = 0 then demoOracle i m o
    else { rawStatus := RawSolverStatus.abnormal, duration := 0, iterations := 0,
           objectiveValue := 0, solution := [] }

/-- The notebook's IPOPT options: `mu_init = 1e-6`, `bound_push = 1e-6`. -/
def demoOptions : SolverOptions :=
  { barrierInitParam := 1 / 1000000, boundPush := 1 / 1000000,
    maxIterations := 3000, convergenceTolerance := 1 / 100000000 }

/-- Pipeline state of the demonstration run after an infeasible solve. -/
def demoInfeasibleState : PipelineState :=
  { model := demoModel, lastReport := some demoInfeasibleReport }

/-- Selection naming a site absent from the demonstration network. -/
def demoBadSel : SiteDesignSelection := [("R99", 1)]

/- ================================================================
   Helper lemmas
   ================================================================ -/

/-- Summing a function of both indices over the flattened index-pair list is
the same as the nested per-index sums. -/
theorem sum_map_flatMap_pairs {α β : Type} (A : List α) (B : List β) (f : α → β → ℚ) :
    ((A.flatMap (fun a => B.map (fun b => (a, b)))).map (fun p => f p.1 p.2)).sum =
      (A.map (fun a => (B.map (fun b => f a b)).sum)).sum := by
  induction A with
  | nil => rfl
  | cons a A ih =>
    simp only [List.flatMap_cons, List.map_append, List.sum_append, List.map_map,
      List.map_cons, List.sum_cons, ih]
    rfl

/-- Looking a key up in an association list built by a key-preserving map. -/
theorem lookup_map_pair {β γ : Type} (g : String → β → γ) (a : String) :
    ∀ l : List (String × β),
      (l.map (fun p => (p.1, g p.1 p.2))).lookup a = (l.lookup a).map (g a)
  | [] => rfl
  | (k, b) :: l => by
    cases h : a == k with
    | true =>
      have hk : a = k := beq_iff_eq.mp h
      subst hk
      simp [List.lookup, h]
    | false =>
      simp [List.lookup, h, lookup_map_pair g a l]

/-- Inversion for a successful extraction: the report is read off the model and
the pipeline state is returned unchanged. -/
theorem extract_ok_inv (st : PipelineState) (rep : ResultsReport) (st2 : PipelineState)
    (h : extract st = Except.ok (rep, st2)) :
    rep = buildReport st.model ∧ st2 = st := by
  cases hL : st.lastReport with
  | none => simp [extract, hL] at h
  | some r =>
    cases hs : r.status <;> simp [extract, hL, hs] at h <;>
      exact ⟨h.1.symm, h.2.symm⟩

/- ================================================================
   Claim theorems
   ================================================================ -/

/-- Claim C1: for every pipeline state whose most recent TerminationReport has
status Infeasible or SolverError, `extract` fails with ExtractionError and
never returns a ResultsReport. -/
theorem extract_rejects_failed_solve (st : PipelineState) (r : TerminationReport)
    (hr : st.lastReport = some r)
    (h : r.status = TerminationStatus.Infeasible ∨
      r.status = TerminationStatus.SolverError) :
    extract st = Except.error HarnessError.extractionError ∧
    ∀ (rep : ResultsReport) (st2 : PipelineState),
      extract st ≠ Except.ok (rep, st2) := by
  have he : extract st = Except.error HarnessError.extractionError := by
    rcases h with h | h <;> simp [extract, hr, h]
  refine ⟨he, fun rep st2 hok => ?_⟩
  rw [he] at hok
  exact Except.noConfusion hok

/-- Witness for C1: the demonstration run with an Infeasible latest report is
rejected by `extract`. -/
theorem extract_rejects_failed_solve_witness :
    extract demoInfeasibleState = Except.error HarnessError.extractionError :=
  (extract_rejects_failed_solve demoInfeasibleState demoInfeasibleReport rfl
    (Or.inl rfl)).1

/-- Claim C3: `build` is deterministic — two calls on equal tables and equal
selections produce models with identical variable counts and identical
constraint counts. -/
theorem build_deterministic_counts (t1 t2 : RawInputTable) (s1 s2 : SiteDesignSelection)
    (ht : t1 = t2) (hs : s1 = s2) (m1 m2 : ModelInstance)
    (h1 : build t1 s1 = Except.ok m1) (h2 : build t2 s2 = Except.ok m2) :
    varCount m1 = varCount m2 ∧ conCount m1 = conCount m2 := by
  subst ht
  subst hs
  rw [h1] at h2
  injection h2 with h
  subst h
  exact ⟨rfl, rfl⟩

/-- Witness for C3: two builds from the demonstration table and the notebook's
selection agree on both counts. -/
theorem build_deterministic_counts_witness :
    varCount demoModel = varCount demoModel ∧ conCount demoModel = conCount demoModel :=
  build_deterministic_counts demoTable demoTable demoSel demoSel rfl rfl
    demoModel demoModel rfl rfl

/-- Claim C4: a selection naming a site with no corresponding network node
makes `build` fail with ConfigurationError, and no model instance is produced
(the failure is atomic). -/
theorem build_unknown_site_rejected (t : RawInputTable) (sel : SiteDesignSelection)
    (site : String) (k : Nat)
    (hmem : (site, k) ∈ sel) (habs : site ∉ t.siteSet) :
    build t sel = Except.error HarnessError.configurationError ∧
    ∀ m : ModelInstance, build t sel ≠ Except.ok m := by
  have hall : sel.all (fun p => t.siteSet.contains p.1) = false := by
    apply Bool.eq_false_iff.mpr
    intro htrue
    have hc := List.all_eq_true.mp htrue (site, k) hmem
    exact habs (by simpa using hc)
  have he : build t sel = Except.error HarnessError.configurationError := by
    unfold build
    rw [hall]
    rfl
  refine ⟨he, fun m hok => ?_⟩
  rw [he] at hok
  exact Except.noConfusion hok

/-- Witness for C4: selecting the absent site "R99" on the demonstration
network is rejected. -/
theorem build_unknown_site_rejected_witness :
    build demoTable demoBadSel = Except.error HarnessError.configurationError :=
  (build_unknown_site_rejected demoTable demoBadSel "R99" 1 (by decide)
    (by decide)).1

/-- Claim C5: extraction from a successfully solved model returns a report
populating at least the piping/arc cost, disposal cost, freshwater cost,
storage cost, storage revenue, treatment revenue, and time-annualized
treatment OPEX and CAPEX fields. -/
theorem extract_populates_min_fields (st : PipelineState) (r : TerminationReport)
    (hr : st.lastReport = some r)
    (h : r.status = TerminationStatus.Optimal ∨
      r.status = TerminationStatus.FeasibleSuboptimal) :
    ∃ (rep : ResultsReport) (st2 : PipelineState),
      extract st = Except.ok (rep, st2) ∧
      ∀ n ∈ reportFieldNames, ∃ v : ℚ, (n, v) ∈ rep := by
  refine ⟨buildReport st.model, st, ?_, ?_⟩
  · rcases h with h | h <;> simp [extract, hr, h]
  · intro n hn
    simp only [reportFieldNames, List.mem_cons, List.not_mem_nil, or_false] at hn
    rcases hn with rfl | rfl | rfl | rfl | rfl | rfl | rfl | rfl
    · exact ⟨lookupValue st.model "arc_cost", by simp [buildReport]⟩
    · exact ⟨lookupValue st.model "disp_cost", by simp [buildReport]⟩
    · exact ⟨lookupValue st.model "fresh_cost", by simp [buildReport]⟩
    · exact ⟨lookupValue st.model "stor_cost", by simp [buildReport]⟩
    · exact ⟨lookupValue st.model "stor_rev", by simp [buildReport]⟩
    · exact ⟨lookupValue st.model "treat_rev", by simp [buildReport]⟩
    · exact ⟨1000 * siteCostSum st.model "OPEX_" / 365, by simp [buildReport]⟩
    · exact ⟨1000 * siteCostSum st.model "CAPEX_" / 365, by simp [buildReport]⟩

/-- Witness for C5: the successfully solved demonstration state yields a
report populating every required field. -/
theorem extract_populates_min_fields_witness :
    ∃ (rep : ResultsReport) (st2 : PipelineState),
      extract demoSolvedState = Except.ok (rep, st2) ∧
      ∀ n ∈ reportFieldNames, ∃ v : ℚ, (n, v) ∈ rep :=
  extract_populates_min_fields demoSolvedState demoOptimalReport rfl (Or.inl rfl)

/-- Claim C6: `solve` invokes the external solver exactly once (the invocation
counter advances by exactly one) and its entire result depends only on that
single invocation: two solver oracles that agree on the one consulted
invocation yield identical results, however they differ elsewhere — so no
automatic retry happens inside `solve`. -/
theorem solve_single_shot
    (oracle1 oracle2 : Nat → ModelInstance → SolverOptions → RawSolverOutcome)
    (n : Nat) (st : PipelineState) (opts : SolverOptions)
    (hagree : oracle1 n st.model opts = oracle2 n st.model opts) :
    (solve oracle1 n st opts).2.2 = n + 1 ∧
    solve oracle1 n st opts = solve oracle2 n st opts := by
  constructor
  · rfl
  · unfold solve
    rw [hagree]

/-- Witness for C6: the demonstration oracle and its alternative agree only on
invocation 0, and one `solve` call from counter 0 cannot tell them apart. -/
theorem solve_single_shot_witness :
    (solve demoOracle 0 demoSolvedState demoOptions).2.2 = 0 + 1 ∧
    solve demoOracle 0 demoSolvedState demoOptions =
      solve demoOracleAlt 0 demoSolvedState demoOptions :=
  solve_single_shot demoOracle demoOracleAlt 0 demoSolvedState demoOptions rfl

/-- Claim C7: round-trip — back-calculating the design from a model built with
a single-stage selection for a site returns, for that site, a stage count that
is at least 1 and equal to the selection's stage count. -/
theorem backCalculateDesign_round_trip (t : RawInputTable) (sel : SiteDesignSelection)
    (m : ModelInstance) (site : String)
    (hb : build t sel = Except.ok m) (hsel : sel.lookup site = some 1) :
    ∃ d : SiteDesign, (backCalculateDesign m sel).lookup site = some d ∧
      d.stages = 1 ∧ 1 ≤ d.stages := by
  have hst : m.builtStages = sel := by
    unfold build at hb
    split at hb
    · split at hb
      · injection hb with h
        rw [← h]
      · exact Except.noConfusion hb
    · exact Except.noConfusion hb
  have hmap :
      (backCalculateDesign m sel).lookup site =
        (sel.lookup site).map (fun _ : Nat =>
          ({ stages := (m.builtStages.lookup site).getD 0,
             evapArea := 10 * lookupValue m (site ++ "_stage0_flow_in") } : SiteDesign)) :=
    lookup_map_pair
      (fun a (_ : Nat) =>
        ({ stages := (m.builtStages.lookup a).getD 0,
           evapArea := 10 * lookupValue m (a ++ "_stage0_flow_in") } : SiteDesign))
      site sel
  rw [hsel] at hmap
  refine ⟨_, hmap, ?_, ?_⟩ <;> simp [hst, hsel]

/-- Witness for C7: the notebook's selection `R01_IN ↦ 1` on the demonstration
network round-trips through the back-calculation. -/
theorem backCalculateDesign_round_trip_witness :
    ∃ d : SiteDesign, (backCalculateDesign demoModel demoSel).lookup "R01_IN" = some d ∧
      d.stages = 1 ∧ 1 ≤ d.stages :=
  backCalculateDesign_round_trip demoTable demoSel demoModel "R01_IN" rfl rfl

/-- Claim C8: `extract` is idempotent — extraction reads without mutating, so
two consecutive extractions with no intervening solve return field-by-field
identical reports (and leave the pipeline state untouched). -/
theorem extract_idempotent (st st1 st2 : PipelineState) (r1 r2 : ResultsReport)
    (h1 : extract st = Except.ok (r1, st1)) (h2 : extract st1 = Except.ok (r2, st2)) :
    r1 = r2 ∧ st1 = st ∧ st2 = st1 := by
  obtain ⟨hr1, hs1⟩ := extract_ok_inv st r1 st1 h1
  obtain ⟨hr2, hs2⟩ := extract_ok_inv st1 r2 st2 h2
  subst hs1
  exact ⟨hr1.trans hr2.symm, rfl, hs2⟩

/-- Witness for C8: two consecutive extractions from the solved demonstration
state agree and leave the state untouched. -/
theorem extract_idempotent_witness :
    buildReport demoModel = buildReport demoModel ∧
      demoSolvedState = demoSolvedState ∧ demoSolvedState = demoSolvedState :=
  extract_idempotent demoSolvedState demoSolvedState demoSolvedState
    (buildReport demoModel) (buildReport demoModel) rfl rfl

/-- Claim C9: the recovery slider's upper bound `1 - salinity/0.3` is fixed
when the recovery-widget cell executes, changing the salinity slider never
touches the recovery widget, and hence some interaction sequence (raise
salinity after the recovery widget exists) makes the Run button invoke
`run_simulation` with `overall_recovery` strictly greater than
`1 - salinity/0.3`. -/
theorem recovery_bound_stale :
    (∀ sal : ℚ, (recovery_widget_cell sal).max = 1 - sal / 0.3) ∧
    (∀ (s : MDNotebookState) (q : ℚ),
        (uiStep s (UIEvent.setSalinity q)).recovery_widget = s.recovery_widget) ∧
    (∃ evs : List UIEvent,
        1 - (on_run_button_clicked (runUI evs)).feed_mass_frac_TDS / 0.3 <
          (on_run_button_clicked (runUI evs)).overall_recovery) := by
  refine ⟨fun _ => rfl, fun s q => rfl, ⟨staleRunSeq, ?_⟩⟩
  norm_num [staleRunSeq, runUI, uiStep, mdInitialState, on_run_button_clicked,
    run_simulation, FloatSlider.setValue, salinity_widget0, flowrate_widget0,
    recovery_widget_cell, min_def, max_def]

/-- Claim C2 (failing input): after the interaction sequence "set recovery to
0.8, then raise salinity to 0.15, then click Run", the notebook invokes the
simulation with recovery 0.8 while the solubility-derived bound is 0.5, and
the implied brine concentration 0.15/(1-0.8) = 0.75 exceeds the 0.3 solubility
limit — no error is raised anywhere in the notebook on this path. -/
theorem md_supersaturated_run :
    (on_run_button_clicked (runUI staleRunSeq)).overall_recovery = 0.8 ∧
    (on_run_button_clicked (runUI staleRunSeq)).feed_mass_frac_TDS = 0.15 ∧
    1 - (on_run_button_clicked (runUI staleRunSeq)).feed_mass_frac_TDS / 0.3 <
      (on_run_button_clicked (runUI staleRunSeq)).overall_recovery ∧
    0.3 < (on_run_button_clicked (runUI staleRunSeq)).feed_mass_frac_TDS /
      (1 - (on_run_button_clicked (runUI staleRunSeq)).overall_recovery) := by
  refine ⟨?_, ?_, ?_, ?_⟩ <;>
    norm_num [staleRunSeq, runUI, uiStep, mdInitialState, on_run_button_clicked,
      run_simulation, FloatSlider.setValue, salinity_widget0, flowrate_widget0,
      recovery_widget_cell, min_def, max_def]

/-- Claim C10: in the results cell, the printed treatment OPEX equals 1000
times the sum over desalination sites and time periods of `OPEX[s,t]/365 *
p_dt`, the printed treatment CAPEX equals 1000 times the summed `CAPEX[s]`
divided by 365 times `p_dt` times `|s_T|`, and the six network cost fields are
printed as the raw model variable values with no factor of 1000. -/
theorem reported_cost_scaling (m : IntegratedModel) :
    treatmentOpexPrinted m =
      1000 * (((m.m_network.desalination_nodes.flatMap
          (fun s => m.m_network.s_T.map (fun t => (s, t)))).map
        (fun p => m.OPEX p.1 p.2 / 365 * m.m_network.p_dt)).sum) ∧
    treatmentCapexPrinted m =
      1000 * (m.m_network.desalination_nodes.map (fun s => m.CAPEX s)).sum / 365 *
        m.m_network.p_dt * (m.m_network.s_T.length : ℚ) ∧
    pipingCostPrinted m = m.m_network.arc_cost ∧
    disposalCostPrinted m = m.m_network.disp_cost ∧
    freshWaterCostPrinted m = m.m_network.fresh_cost ∧
    storageCostPrinted m = m.m_network.stor_cost ∧
    storageRewardPrinted m = m.m_network.stor_rev ∧
    treatmentRewardPrinted m = m.m_network.treat_rev := by
  refine ⟨?_, ?_, rfl, rfl, rfl, rfl, rfl, rfl⟩
  · exact congrArg (fun x : ℚ => 1000 * x)
      (sum_map_flatMap_pairs m.m_network.desalination_nodes m.m_network.s_T
        (fun s t => m.OPEX s t / 365 * m.m_network.p_dt)).symm
  · unfold treatmentCapexPrinted
    ring
